import Mathlib

/-!
Shallow embedding of the request-scheduling / batch-formation core of the
ByteMLPerf LLM inference harness:

* `llm_perf/core/engine.py` — `PacketStatus`, `CoreEngine.Packet` and its
  operations (`add_result`, `get_result`, `finish`, `error`, `is_finished`,
  `return_q_empty`);
* `llm_perf/backends/NPU/npu_engine.py` — `NpuEngine.Packet.prepare_inputs`
  (the batch builder) and `NpuEngine.broadcast_inputs`.

Python ints are embedded as `Int`; Python lists as `List`; a raised Python
exception as the `.error` branch of an `Except`; the asynchronous result
queue as an explicit FIFO list where a blocking `get` on an empty queue is
modelled as `none` (the caller would suspend).
-/

/-- `PacketStatus` enum from `llm_perf/core/engine.py`:
ERROR = -1, PENDING = 0, RUNNING = 1, FINISH = 2. -/
inductive PacketStatus where
  | ERROR
  | PENDING
  | RUNNING
  | FINISH
deriving DecidableEq, BEq, Repr

/-- Modelled from the spec: `GenerateRequest` lives in
`llm_perf/core/generation.py`, which is not part of the given sources; the
spec describes it as a caller-supplied immutable sequence of input token ids
(plus a generation configuration that only the external Sampler interprets,
irrelevant to the embedded operations). -/
structure GenerateRequest where
  input_ids : List Int
deriving DecidableEq, Repr

/-- Modelled from the spec: `GenerateResult` lives in
`llm_perf/core/generation.py`, which is not part of the given sources; the
spec describes it as a value object carrying a single produced token id
(plus auxiliary per-step metadata, irrelevant to the embedded operations). -/
structure GenerateResult where
  token_id : Int
deriving DecidableEq, Repr

/-- Modelled from the spec: `ResultQueue` lives in
`llm_perf/core/generation.py`, which is not part of the given sources; the
spec describes it as a single-producer/single-consumer FIFO queue of
`GenerateResult | terminal-marker` with blocking `get` and non-blocking
emptiness check.  An item is `Option GenerateResult`, where `none` is the
terminal marker (Python `None`). -/
structure ResultQueue where
  items : List (Option GenerateResult)
deriving DecidableEq, Repr

/-- FIFO `put`: append at the back. -/
def ResultQueue.put (q : ResultQueue) (x : Option GenerateResult) : ResultQueue :=
  ⟨q.items ++ [x]⟩

/-- Blocking FIFO `get`, modelled explicitly: `none` means the queue is empty
and the caller suspends; `some (x, q)` returns the front item and the rest of
the queue. -/
def ResultQueue.get (q : ResultQueue) : Option (Option GenerateResult × ResultQueue) :=
  match q.items with
  | [] => none
  | x :: rest => some (x, ⟨rest⟩)

/-- Non-blocking emptiness check. -/
def ResultQueue.isempty (q : ResultQueue) : Bool :=
  q.items.isEmpty

/-- `CoreEngine.Packet` from `llm_perf/core/engine.py`: per-request mutable
state holder plus result channel (fields set in `__init__`, lines 93-98). -/
structure CoreEngine.Packet where
  request : GenerateRequest
  state : PacketStatus
  generate_ids : List Int
  result_queue : ResultQueue
  exception : Option String
deriving DecidableEq, Repr

/-- `CoreEngine.Packet.__init__` (engine.py lines 93-98). -/
def CoreEngine.Packet.init (request : GenerateRequest) : CoreEngine.Packet :=
  { request := request
    result_queue := ⟨[]⟩
    state := PacketStatus.PENDING
    generate_ids := []
    exception := none }

/-- `add_result` (engine.py lines 100-102): append the token id to
`generate_ids` and push the result onto the result queue. -/
def CoreEngine.Packet.add_result (p : CoreEngine.Packet) (res : GenerateResult) :
    CoreEngine.Packet :=
  { p with
    generate_ids := p.generate_ids ++ [res.token_id]
    result_queue := p.result_queue.put (some res) }

/-- `get_result` (engine.py lines 104-105): `await self.result_queue.get()`.
Stateful: returns the delivered item together with the packet whose queue has
been popped; `none` means the caller suspends on the empty queue. -/
def CoreEngine.Packet.get_result (p : CoreEngine.Packet) :
    Option (Option GenerateResult × CoreEngine.Packet) :=
  match p.result_queue.get with
  | none => none
  | some (x, q) => some (x, { p with result_queue := q })

/-- `finish` (engine.py lines 107-109): set state to FINISH and put the
terminal marker `None` on the result queue. -/
def CoreEngine.Packet.finish (p : CoreEngine.Packet) : CoreEngine.Packet :=
  { p with
    state := PacketStatus.FINISH
    result_queue := p.result_queue.put none }

/-- `error` (engine.py lines 111-112).  The source body is
`self.state == PacketStatus.ERROR`: a `==` comparison expression whose value
is discarded, not a `=` assignment, so the method mutates nothing. -/
def CoreEngine.Packet.error (p : CoreEngine.Packet) : CoreEngine.Packet :=
  let _cmp : Bool := p.state == PacketStatus.ERROR
  p

/-- `is_finished` (engine.py lines 114-115). -/
def CoreEngine.Packet.is_finished (p : CoreEngine.Packet) : Bool :=
  p.state == PacketStatus.FINISH

/-- `return_q_empty` (engine.py lines 117-118). -/
def CoreEngine.Packet.return_q_empty (p : CoreEngine.Packet) : Bool :=
  p.result_queue.isempty

/-- The rank identity an `NpuEngine` carries after `setup()`
(npu_engine.py lines 108-117): total rank count and this process's rank,
read once from the environment.  Only these two fields of the engine are
consulted by `broadcast_inputs`. -/
structure NpuEngine where
  world_size : Int
  local_rank : Int
deriving DecidableEq, Repr

/-- One inter-process communication action performed through the
`NPUMultiProcessMsgr` (`self.mlp_manager`). -/
inductive CommAction where
  | broadcastTo
  | receiveFrom
deriving DecidableEq, Repr

/-- `NpuEngine.broadcast_inputs` (npu_engine.py lines 123-132).  `channel`
stands for the payload a follower's `self.mlp_manager.receive()` would
deliver.  The returned list records the communication actions performed:
empty when `world_size <= 1` (the early-return branch), a broadcast on the
leader, a receive on a follower. -/
def NpuEngine.broadcast_inputs {α : Type} (self : NpuEngine) (channel : α) (args : α) :
    α × List CommAction :=
  if self.world_size ≤ 1 then
    (args, [])
  else if self.local_rank = 0 then
    (args, [CommAction.broadcastTo])
  else
    (channel, [CommAction.receiveFrom])

/-! ## Theorems on the Packet operations -/

/-- C7: a single call to `finish()` sets the state to FINISH and enqueues
exactly one terminal marker on the result channel; afterwards `is_finished()`
returns true and `get_result()` does not block — and when the channel had
been drained beforehand, it returns the terminal marker itself. -/
theorem c7_finish_terminal (p : CoreEngine.Packet) :
    p.finish.state = PacketStatus.FINISH ∧
    p.finish.result_queue.items = p.result_queue.items ++ [none] ∧
    p.finish.is_finished = true ∧
    p.finish.get_result.isSome = true ∧
    (p.result_queue.items = [] →
      p.finish.get_result =
        some (none,
          { request := p.request
            state := PacketStatus.FINISH
            generate_ids := p.generate_ids
            result_queue := ⟨[]⟩
            exception := p.exception })) := by
  refine ⟨rfl, rfl, rfl, ?_, ?_⟩
  · cases h : p.result_queue.items <;>
      simp [CoreEngine.Packet.finish, CoreEngine.Packet.get_result,
        ResultQueue.put, ResultQueue.get, h]
  · intro h
    simp [CoreEngine.Packet.finish, CoreEngine.Packet.get_result,
      ResultQueue.put, ResultQueue.get, h]

/-- Witness for C7 at a concrete freshly created packet. -/
theorem c7_finish_terminal_witness :
    ((CoreEngine.Packet.init ⟨[5, 7]⟩).finish).state = PacketStatus.FINISH ∧
    ((CoreEngine.Packet.init ⟨[5, 7]⟩).finish).get_result =
      some (none,
        { request := ⟨[5, 7]⟩
          state := PacketStatus.FINISH
          generate_ids := []
          result_queue := ⟨[]⟩
          exception := none }) :=
  ⟨(c7_finish_terminal (CoreEngine.Packet.init ⟨[5, 7]⟩)).1,
   (c7_finish_terminal (CoreEngine.Packet.init ⟨[5, 7]⟩)).2.2.2.2 rfl⟩

/-- C10: `error()` is a frame-preserving no-op: the whole packet — state,
generated ids, stored exception, result-channel contents — is unchanged, no
terminal marker is enqueued, and a consumer suspended in `get_result()`
observes exactly the same queue as before. -/
theorem c10_error_frame (p : CoreEngine.Packet) :
    p.error = p ∧
    p.error.state = p.state ∧
    p.error.generate_ids = p.generate_ids ∧
    p.error.exception = p.exception ∧
    p.error.result_queue.items = p.result_queue.items ∧
    p.error.get_result = p.get_result :=
  ⟨rfl, rfl, rfl, rfl, rfl, rfl⟩

/-- C6 (code bug): `error()` does not set the state to ERROR.  On a freshly
created packet (state PENDING) the state after `error()` is still PENDING,
because engine.py line 112 writes `self.state == PacketStatus.ERROR` — an
equality test whose result is discarded — instead of an assignment. -/
theorem c6_error_does_not_set_state :
    ((CoreEngine.Packet.init ⟨[1, 2, 3]⟩).error).state = PacketStatus.PENDING ∧
    ((CoreEngine.Packet.init ⟨[1, 2, 3]⟩).error).state ≠ PacketStatus.ERROR :=
  ⟨rfl, by decide⟩

/-- C9: with rank count 1, `broadcast_inputs` returns its arguments unchanged
and performs no inter-process communication. -/
theorem c9_broadcast_identity {α : Type} (self : NpuEngine) (channel args : α)
    (h : self.world_size = 1) :
    self.broadcast_inputs channel args = (args, []) := by
  simp [NpuEngine.broadcast_inputs, h]

/-- Witness for C9 at a concrete single-rank engine and payload. -/
theorem c9_broadcast_identity_witness :
    NpuEngine.broadcast_inputs ⟨1, 0⟩ (99 : Int) 7 = (7, []) :=
  c9_broadcast_identity ⟨1, 0⟩ 99 7 rfl

/-! ## The batch builder: `NpuEngine.Packet.prepare_inputs` -/

/-- A Python exception class raised (or, for the two spec-named classes,
claimed to be raised) by `prepare_inputs`.  `keyError` is Python's `KeyError`
on a missing mapping key; `unboundLocalError` is Python's `UnboundLocalError`
on reading a never-assigned local variable.  `configurationError` and
`emptyBatchError` are the classes the spec's error-condition section names;
the source never defines nor raises them, they are listed here only so the
spec's error claims can be stated. -/
inductive PyError where
  | keyError (key : String)
  | unboundLocalError (name : String)
  | configurationError
  | emptyBatchError
deriving DecidableEq, Repr

/-- The `model_inputs` dict returned by `prepare_inputs`
(npu_engine.py lines 74-86).  `past_key_values`, `attention_mask` and
`use_cache` are always set to `None`; `return_last_logit` is present (as
`False`) only for the `chatglm2` model. -/
structure ModelInputs where
  past_key_values : Option Unit
  attention_mask : Option Unit
  use_cache : Option Unit
  input_ids : List (List Int)
  position_ids : List (List Int)
  generate_type : String
  return_last_logit : Option Bool
deriving DecidableEq, Repr

/-- `len(packet.request.input_ids) + len(packet.generate_ids)`, the
`cur_id_len` of npu_engine.py lines 37 and 41. -/
def packetLen (p : CoreEngine.Packet) : Nat :=
  p.request.input_ids.length + p.generate_ids.length

/-- The first loop of `prepare_inputs` (npu_engine.py lines 35-38):
`max_seq_len` starts at `-1` and is raised to each packet's `cur_id_len`
when that is larger. -/
def maxSeqLen (batch : List CoreEngine.Packet) : Int :=
  batch.foldl
    (fun m p => if (packetLen p : Int) > m then (packetLen p : Int) else m)
    (-1)

/-- One iteration of the second loop of `prepare_inputs`
(npu_engine.py lines 40-71), acting on the accumulator
`(all_input_ids, all_position_ids, generate_type)`.  `generate_type` is
`Option String` because the Python local is unbound (`none`) until the loop
body first assigns it.  In the decode branch the source reads
`packet.generate_ids[len(packet.generate_ids) - 1]`; the branch condition
guarantees `generate_ids` is non-empty, so this is its last element
(`getLastD 0`). -/
def stepRow (pad_token_id msl : Int)
    (acc : List (List Int) × List (List Int) × Option String)
    (p : CoreEngine.Packet) :
    List (List Int) × List (List Int) × Option String :=
  if p.generate_ids.length = 0 then
    (acc.1 ++ [p.request.input_ids ++ p.generate_ids ++
        List.replicate (msl - (packetLen p : Int)).toNat pad_token_id],
     acc.2.1 ++ [(List.range msl.toNat).map Int.ofNat],
     some "prefill")
  else
    (acc.1 ++ [p.generate_ids.getLastD 0 ::
        List.replicate (msl - 1).toNat pad_token_id],
     acc.2.1 ++ [(msl - 1) :: List.replicate (msl - 1).toNat (0 : Int)],
     some "decode")

/-- The second loop of `prepare_inputs` in full: fold `stepRow` over the
batch starting from empty row lists and an unbound `generate_type`. -/
def prepareLoop (pad_token_id msl : Int) (batch : List CoreEngine.Packet) :
    List (List Int) × List (List Int) × Option String :=
  batch.foldl (stepRow pad_token_id msl) ([], [], none)

/-- `NpuEngine.Packet.prepare_inputs` (npu_engine.py lines 24-86).  The two
required `kwargs` entries and the `model_config['model_name']` entry are
passed as `Option`s / an association list; a missing one raises `KeyError`
exactly where the Python subscript would (lines 29, 30, 83).  On an empty
batch the loop never assigns `generate_type`, so line 81 raises
`UnboundLocalError` before the `model_name` lookup is reached. -/
def NpuEngine.Packet.prepare_inputs
    (kw_model_config : Option (List (String × String)))
    (kw_pad_token_id : Option Int)
    (batch : List CoreEngine.Packet) : Except PyError ModelInputs :=
  match kw_model_config, kw_pad_token_id with
  | none, _ => Except.error (PyError.keyError "model_config")
  | some _, none => Except.error (PyError.keyError "pad_token_id")
  | some model_config, some pad_token_id =>
    let max_seq_len : Int := maxSeqLen batch
    let res := prepareLoop pad_token_id max_seq_len batch
    match res.2.2 with
    | none => Except.error (PyError.unboundLocalError "generate_type")
    | some generate_type =>
      match model_config.lookup "model_name" with
      | none => Except.error (PyError.keyError "model_name")
      | some model_name =>
        Except.ok
          { past_key_values := none
            attention_mask := none
            use_cache := none
            input_ids := res.1
            position_ids := res.2.1
            generate_type := generate_type
            return_last_logit :=
              if model_name = "chatglm2" then some false else none }

/-! ## Helper functions and lemmas about the batch builder -/

/-- The `input_ids` row `prepare_inputs` builds for one packet. -/
def rowInputIds (pad_token_id msl : Int) (p : CoreEngine.Packet) : List Int :=
  if p.generate_ids.length = 0 then
    p.request.input_ids ++ p.generate_ids ++
      List.replicate (msl - (packetLen p : Int)).toNat pad_token_id
  else
    p.generate_ids.getLastD 0 :: List.replicate (msl - 1).toNat pad_token_id

/-- The `position_ids` row `prepare_inputs` builds for one packet. -/
def rowPositionIds (msl : Int) (p : CoreEngine.Packet) : List Int :=
  if p.generate_ids.length = 0 then
    (List.range msl.toNat).map Int.ofNat
  else
    (msl - 1) :: List.replicate (msl - 1).toNat (0 : Int)

/-- The `generate_type` tag the loop body assigns for one packet. -/
def rowType (p : CoreEngine.Packet) : String :=
  if p.generate_ids.length = 0 then "prefill" else "decode"

/-- The spec's `max_length`: the maximum over all packets in the batch of
`len(request.input_ids) + len(generate_ids)`, as a natural number. -/
def batchMaxLength (batch : List CoreEngine.Packet) : Nat :=
  batch.foldl (fun m p => max m (packetLen p)) 0

lemma stepRow_eq (pad msl : Int)
    (acc : List (List Int) × List (List Int) × Option String)
    (p : CoreEngine.Packet) :
    stepRow pad msl acc p =
      (acc.1 ++ [rowInputIds pad msl p],
       acc.2.1 ++ [rowPositionIds msl p],
       some (rowType p)) := by
  unfold stepRow rowInputIds rowPositionIds rowType
  split <;> rfl

lemma foldl_stepRow (pad msl : Int) :
    ∀ (batch : List CoreEngine.Packet) (a b : List (List Int))
      (c : Option String),
      batch.foldl (stepRow pad msl) (a, b, c) =
        (a ++ batch.map (rowInputIds pad msl),
         b ++ batch.map (rowPositionIds msl),
         batch.foldl (fun _ p => some (rowType p)) c) := by
  intro batch
  induction batch with
  | nil => intro a b c; simp
  | cons p rest ih =>
    intro a b c
    simp only [List.foldl_cons, List.map_cons, stepRow_eq]
    rw [ih]
    simp

lemma prepareLoop_eq (pad msl : Int) (batch : List CoreEngine.Packet) :
    prepareLoop pad msl batch =
      (batch.map (rowInputIds pad msl),
       batch.map (rowPositionIds msl),
       batch.foldl (fun _ p => some (rowType p)) none) := by
  simpa using foldl_stepRow pad msl batch [] [] none

lemma foldl_rowType_getLast :
    ∀ (batch : List CoreEngine.Packet) (c : Option String)
      (q : CoreEngine.Packet),
      batch.getLast? = some q →
      batch.foldl (fun _ p => some (rowType p)) c = some (rowType q) := by
  intro batch
  induction batch with
  | nil => intro c q h; simp at h
  | cons a rest ih =>
    intro c q h
    cases rest with
    | nil =>
      simp only [List.getLast?_singleton, Option.some.injEq] at h
      subst h
      rfl
    | cons b rest2 =>
      rw [List.getLast?_cons_cons] at h
      simpa using ih (some (rowType a)) q h

lemma prepare_inputs_some_some (mc : List (String × String)) (pad : Int)
    (batch : List CoreEngine.Packet) :
    NpuEngine.Packet.prepare_inputs (some mc) (some pad) batch =
      match (prepareLoop pad (maxSeqLen batch) batch).2.2 with
      | none => Except.error (PyError.unboundLocalError "generate_type")
      | some generate_type =>
        match mc.lookup "model_name" with
        | none => Except.error (PyError.keyError "model_name")
        | some model_name =>
          Except.ok
            { past_key_values := none
              attention_mask := none
              use_cache := none
              input_ids := (prepareLoop pad (maxSeqLen batch) batch).1
              position_ids := (prepareLoop pad (maxSeqLen batch) batch).2.1
              generate_type := generate_type
              return_last_logit :=
                if model_name = "chatglm2" then some false else none } := rfl

/-- On success, the fields of the returned `model_inputs` are: one input row
and one position row per packet, and the `generate_type` assigned by the last
packet of the (necessarily non-empty) batch. -/
lemma prepare_inputs_ok_fields (mc : List (String × String)) (pad : Int)
    (batch : List CoreEngine.Packet) (mi : ModelInputs)
    (h : NpuEngine.Packet.prepare_inputs (some mc) (some pad) batch = Except.ok mi) :
    mi.input_ids = batch.map (rowInputIds pad (maxSeqLen batch)) ∧
    mi.position_ids = batch.map (rowPositionIds (maxSeqLen batch)) ∧
    (∀ q, batch.getLast? = some q → mi.generate_type = rowType q) ∧
    batch ≠ [] := by
  rw [prepare_inputs_some_some, prepareLoop_eq] at h
  cases hg : batch.getLast? with
  | none =>
    rw [List.getLast?_eq_none_iff] at hg
    subst hg
    simp at h
  | some q =>
    have hb : batch ≠ [] := by rintro rfl; simp at hg
    rw [foldl_rowType_getLast batch none q hg] at h
    dsimp only at h
    rcases hm : mc.lookup "model_name" with _ | mn <;> rw [hm] at h
    · simp at h
    · rw [Except.ok.injEq] at h
      subst h
      refine ⟨rfl, rfl, ?_, hb⟩
      intro q' hq'
      rw [Option.some.injEq] at hq'
      subst hq'
      rfl

lemma foldl_intMax_cast :
    ∀ (l : List CoreEngine.Packet) (m : Nat),
      l.foldl
          (fun a p => if (packetLen p : Int) > a then (packetLen p : Int) else a)
          (m : Int)
        = ((l.foldl (fun a p => max a (packetLen p)) m : Nat) : Int) := by
  intro l
  induction l with
  | nil => intro m; rfl
  | cons p rest ih =>
    intro m
    have hstep :
        (if (packetLen p : Int) > (m : Int) then (packetLen p : Int) else (m : Int))
          = ((max m (packetLen p) : Nat) : Int) := by
      rcases Nat.le_total (packetLen p) m with hle | hle
      · rw [if_neg (by exact_mod_cast not_lt.mpr hle), Nat.max_eq_left hle]
      · rcases Nat.eq_or_lt_of_le hle with heq | hlt
        · rw [heq]; simp
        · rw [if_pos (by exact_mod_cast hlt), Nat.max_eq_right hle]
    simp only [List.foldl_cons]
    rw [hstep, ih (max m (packetLen p))]

/-- For a non-empty batch the source's `-1`-seeded integer maximum agrees
with the spec's `max_length` (the natural-number maximum of the packet
lengths). -/
lemma maxSeqLen_eq_batchMaxLength (batch : List CoreEngine.Packet)
    (hb : batch ≠ []) :
    maxSeqLen batch = (batchMaxLength batch : Int) := by
  cases batch with
  | nil => exact absurd rfl hb
  | cons p rest =>
    unfold maxSeqLen batchMaxLength
    simp only [List.foldl_cons]
    have h1 :
        (if (packetLen p : Int) > (-1 : Int) then (packetLen p : Int) else (-1 : Int))
          = ((packetLen p : Nat) : Int) := by
      rw [if_pos (by omega)]
    have h2 : max 0 (packetLen p) = packetLen p := Nat.zero_max _
    rw [h1, h2]
    exact foldl_intMax_cast rest (packetLen p)

lemma le_foldl_max :
    ∀ (l : List CoreEngine.Packet) (m : Nat),
      m ≤ l.foldl (fun a p => max a (packetLen p)) m := by
  intro l
  induction l with
  | nil => intro m; exact Nat.le_refl m
  | cons p rest ih =>
    intro m
    simp only [List.foldl_cons]
    exact le_trans (Nat.le_max_left m (packetLen p)) (ih (max m (packetLen p)))

lemma packetLen_le_foldl_max :
    ∀ (l : List CoreEngine.Packet) (m : Nat) (p : CoreEngine.Packet),
      p ∈ l → packetLen p ≤ l.foldl (fun a q => max a (packetLen q)) m := by
  intro l
  induction l with
  | nil => intro m p hp; simp at hp
  | cons a rest ih =>
    intro m p hp
    simp only [List.foldl_cons]
    rcases List.mem_cons.mp hp with h | h
    · subst h
      exact le_trans (Nat.le_max_right m (packetLen p)) (le_foldl_max rest _)
    · exact ih _ p h

/-- Each packet's `cur_id_len` is bounded by the batch maximum. -/
lemma packetLen_le_batchMaxLength (batch : List CoreEngine.Packet)
    (p : CoreEngine.Packet) (hp : p ∈ batch) :
    packetLen p ≤ batchMaxLength batch :=
  packetLen_le_foldl_max batch 0 p hp

/-- The prefill `input_ids` row, rewritten over the spec's `max_length`:
the full prompt right-padded with `pad_token_id`. -/
lemma rowInputIds_prefill (batch : List CoreEngine.Packet) (pad : Int)
    (p : CoreEngine.Packet) (hp : p ∈ batch) (hgen : p.generate_ids = []) :
    rowInputIds pad (maxSeqLen batch) p =
      p.request.input_ids ++
        List.replicate (batchMaxLength batch - p.request.input_ids.length) pad := by
  have hb : batch ≠ [] := by rintro rfl; simp at hp
  have hle : packetLen p ≤ batchMaxLength batch :=
    packetLen_le_batchMaxLength batch p hp
  have hplen : packetLen p = p.request.input_ids.length := by
    unfold packetLen; rw [hgen]; simp
  rw [maxSeqLen_eq_batchMaxLength batch hb]
  unfold rowInputIds
  rw [if_pos (by rw [hgen]; rfl)]
  rw [hgen]
  have ht : ((batchMaxLength batch : Int) - (packetLen p : Int)).toNat
      = batchMaxLength batch - p.request.input_ids.length := by omega
  rw [ht]
  simp

/-- The prefill `position_ids` row is `0 .. max_length - 1`. -/
lemma rowPositionIds_prefill (batch : List CoreEngine.Packet)
    (p : CoreEngine.Packet) (hp : p ∈ batch) (hgen : p.generate_ids = []) :
    rowPositionIds (maxSeqLen batch) p =
      (List.range (batchMaxLength batch)).map Int.ofNat := by
  have hb : batch ≠ [] := by rintro rfl; simp at hp
  rw [maxSeqLen_eq_batchMaxLength batch hb]
  unfold rowPositionIds
  rw [if_pos (by rw [hgen]; rfl)]
  rw [Int.toNat_natCast]

/-- The decode `input_ids` row: the most recently generated token followed by
`max_length - 1` copies of `pad_token_id`. -/
lemma rowInputIds_decode (batch : List CoreEngine.Packet) (pad : Int)
    (p : CoreEngine.Packet) (hp : p ∈ batch) (hgen : p.generate_ids ≠ []) :
    rowInputIds pad (maxSeqLen batch) p =
      p.generate_ids.getLastD 0 ::
        List.replicate (batchMaxLength batch - 1) pad := by
  have hb : batch ≠ [] := by rintro rfl; simp at hp
  have hle : packetLen p ≤ batchMaxLength batch :=
    packetLen_le_batchMaxLength batch p hp
  have h1 : 1 ≤ packetLen p := by
    unfold packetLen
    have := List.length_pos.mpr hgen
    omega
  rw [maxSeqLen_eq_batchMaxLength batch hb]
  unfold rowInputIds
  rw [if_neg (fun hc => hgen (List.length_eq_zero.mp hc))]
  have ht : ((batchMaxLength batch : Int) - 1).toNat = batchMaxLength batch - 1 := by
    omega
  rw [ht]

/-- The decode `position_ids` row: `max_length - 1` then zeros. -/
lemma rowPositionIds_decode (batch : List CoreEngine.Packet)
    (p : CoreEngine.Packet) (hp : p ∈ batch) (hgen : p.generate_ids ≠ []) :
    rowPositionIds (maxSeqLen batch) p =
      ((batchMaxLength batch : Int) - 1) ::
        List.replicate (batchMaxLength batch - 1) (0 : Int) := by
  have hb : batch ≠ [] := by rintro rfl; simp at hp
  have hle : packetLen p ≤ batchMaxLength batch :=
    packetLen_le_batchMaxLength batch p hp
  have h1 : 1 ≤ packetLen p := by
    unfold packetLen
    have := List.length_pos.mpr hgen
    omega
  rw [maxSeqLen_eq_batchMaxLength batch hb]
  unfold rowPositionIds
  rw [if_neg (fun hc => hgen (List.length_eq_zero.mp hc))]
  have ht : ((batchMaxLength batch : Int) - 1).toNat = batchMaxLength batch - 1 := by
    omega
  rw [ht]

/-- Length of the `input_ids` row built for any packet of the batch. -/
lemma rowInputIds_length (batch : List CoreEngine.Packet) (pad : Int)
    (p : CoreEngine.Packet) (hp : p ∈ batch) :
    (rowInputIds pad (maxSeqLen batch) p).length = batchMaxLength batch := by
  have hle : packetLen p ≤ batchMaxLength batch :=
    packetLen_le_batchMaxLength batch p hp
  by_cases hgen : p.generate_ids = []
  · rw [rowInputIds_prefill batch pad p hp hgen]
    have hplen : packetLen p = p.request.input_ids.length := by
      unfold packetLen; rw [hgen]; simp
    simp only [List.length_append, List.length_replicate]
    omega
  · rw [rowInputIds_decode batch pad p hp hgen]
    have h1 : 1 ≤ packetLen p := by
      unfold packetLen
      have := List.length_pos.mpr hgen
      omega
    simp only [List.length_cons, List.length_replicate]
    omega

/-- Length of the `position_ids` row built for any packet of the batch. -/
lemma rowPositionIds_length (batch : List CoreEngine.Packet)
    (p : CoreEngine.Packet) (hp : p ∈ batch) :
    (rowPositionIds (maxSeqLen batch) p).length = batchMaxLength batch := by
  have hle : packetLen p ≤ batchMaxLength batch :=
    packetLen_le_batchMaxLength batch p hp
  by_cases hgen : p.generate_ids = []
  · rw [rowPositionIds_prefill batch p hp hgen]
    rw [List.length_map, List.length_range]
  · rw [rowPositionIds_decode batch p hp hgen]
    have h1 : 1 ≤ packetLen p := by
      unfold packetLen
      have := List.length_pos.mpr hgen
      omega
    simp only [List.length_cons, List.length_replicate]
    omega

/-! ## Concrete packets and expected outputs used by the examples -/

/-- A packet holding the prompt `[5, 7, 9]` with no generated tokens yet. -/
def pkt579 : CoreEngine.Packet :=
  { request := ⟨[5, 7, 9]⟩
    state := PacketStatus.PENDING
    generate_ids := []
    result_queue := ⟨[]⟩
    exception := none }

/-- A packet holding the prompt `[5, 7, 9]` with one generated token `42`,
so its total sequence length is 4. -/
def pkt42 : CoreEngine.Packet :=
  { request := ⟨[5, 7, 9]⟩
    state := PacketStatus.RUNNING
    generate_ids := [42]
    result_queue := ⟨[]⟩
    exception := none }

/-- Expected batch-builder output for `[pkt579]` with `pad_token_id = 0`. -/
def mi579 : ModelInputs :=
  { past_key_values := none
    attention_mask := none
    use_cache := none
    input_ids := [[5, 7, 9]]
    position_ids := [[0, 1, 2]]
    generate_type := "prefill"
    return_last_logit := none }

/-- Expected batch-builder output for `[pkt42]` with `pad_token_id = 0`. -/
def mi42 : ModelInputs :=
  { past_key_values := none
    attention_mask := none
    use_cache := none
    input_ids := [[42, 0, 0, 0]]
    position_ids := [[3, 0, 0, 0]]
    generate_type := "decode"
    return_last_logit := none }

/-- Expected batch-builder output for the mixed batch `[pkt42, pkt579]`
(a decode row followed by a prefill row) with `pad_token_id = 0`. -/
def miMix : ModelInputs :=
  { past_key_values := none
    attention_mask := none
    use_cache := none
    input_ids := [[42, 0, 0, 0], [5, 7, 9, 0]]
    position_ids := [[3, 0, 0, 0], [0, 1, 2, 3]]
    generate_type := "prefill"
    return_last_logit := none }

/-! ## Theorems on the batch builder -/

/-- C1: in every successfully built batch, a packet with zero
previously-generated tokens yields a prefill row: its `input_ids` row is the
full prompt right-padded with `pad_token_id` to the batch's max length and
its `position_ids` row is `0 .. max_length - 1`; and on the claim's concrete
batch (`pad_token_id = 0`, prompt `[5, 7, 9]` alone, max length 3) the result
is `input_ids = [[5,7,9]]`, `position_ids = [[0,1,2]]`,
`generate_type = "prefill"`. -/
theorem c1_prefill_row :
    (∀ (mc : List (String × String)) (pad : Int)
        (batch : List CoreEngine.Packet) (mi : ModelInputs) (i : Nat)
        (hi : i < batch.length),
        NpuEngine.Packet.prepare_inputs (some mc) (some pad) batch = Except.ok mi →
        batch[i].generate_ids = [] →
        mi.input_ids[i]? =
          some (batch[i].request.input_ids ++
            List.replicate
              (batchMaxLength batch - batch[i].request.input_ids.length) pad) ∧
        mi.position_ids[i]? =
          some ((List.range (batchMaxLength batch)).map Int.ofNat)) ∧
    NpuEngine.Packet.prepare_inputs (some [("model_name", "llama2")]) (some 0)
        [pkt579] = Except.ok mi579 := by
  constructor
  · intro mc pad batch mi i hi h hgen
    obtain ⟨h1, h2, -, -⟩ := prepare_inputs_ok_fields mc pad batch mi h
    have hp : batch[i] ∈ batch := List.getElem_mem hi
    constructor
    · rw [h1, List.getElem?_map, List.getElem?_eq_getElem hi, Option.map_some',
        rowInputIds_prefill batch pad batch[i] hp hgen]
    · rw [h2, List.getElem?_map, List.getElem?_eq_getElem hi, Option.map_some',
        rowPositionIds_prefill batch batch[i] hp hgen]
  · rfl

/-- Witness for C1: the general statement applied to the claim's concrete
prefill batch. -/
theorem c1_prefill_row_witness :
    mi579.input_ids[0]? = some [5, 7, 9] ∧
    mi579.position_ids[0]? = some [0, 1, 2] :=
  c1_prefill_row.1 [("model_name", "llama2")] 0 [pkt579] mi579 0
    (by decide) rfl rfl

/-- C2: in every successfully built batch, a packet with at least one
previously-generated token yields a decode row: its `input_ids` row is the
most recently generated token followed by `pad_token_id` up to the batch's
max length, and its `position_ids` row is `[max_length - 1, 0, 0, ...]`; and
on the claim's concrete batch (`pad_token_id = 0`, `generate_ids = [42]`,
max length 4) the row is `input_ids = [42,0,0,0]`,
`position_ids = [3,0,0,0]`. -/
theorem c2_decode_row :
    (∀ (mc : List (String × String)) (pad : Int)
        (batch : List CoreEngine.Packet) (mi : ModelInputs) (i : Nat)
        (hi : i < batch.length),
        NpuEngine.Packet.prepare_inputs (some mc) (some pad) batch = Except.ok mi →
        batch[i].generate_ids ≠ [] →
        mi.input_ids[i]? =
          some (batch[i].generate_ids.getLastD 0 ::
            List.replicate (batchMaxLength batch - 1) pad) ∧
        mi.position_ids[i]? =
          some (((batchMaxLength batch : Int) - 1) ::
            List.replicate (batchMaxLength batch - 1) (0 : Int))) ∧
    NpuEngine.Packet.prepare_inputs (some [("model_name", "llama2")]) (some 0)
        [pkt42] = Except.ok mi42 := by
  constructor
  · intro mc pad batch mi i hi h hgen
    obtain ⟨h1, h2, -, -⟩ := prepare_inputs_ok_fields mc pad batch mi h
    have hp : batch[i] ∈ batch := List.getElem_mem hi
    constructor
    · rw [h1, List.getElem?_map, List.getElem?_eq_getElem hi, Option.map_some',
        rowInputIds_decode batch pad batch[i] hp hgen]
    · rw [h2, List.getElem?_map, List.getElem?_eq_getElem hi, Option.map_some',
        rowPositionIds_decode batch batch[i] hp hgen]
  · rfl

/-- Witness for C2: the general statement applied to the claim's concrete
decode batch. -/
theorem c2_decode_row_witness :
    mi42.input_ids[0]? = some [42, 0, 0, 0] ∧
    mi42.position_ids[0]? = some [3, 0, 0, 0] :=
  c2_decode_row.1 [("model_name", "llama2")] 0 [pkt42] mi42 0
    (by decide) rfl (by decide)

/-- C3: every row of `input_ids` and of `position_ids` in a successfully
built batch has the same length, the spec's `max_length` — the maximum over
all packets of `len(request.input_ids) + len(generate_ids)`. -/
theorem c3_uniform_row_length (mc : List (String × String)) (pad : Int)
    (batch : List CoreEngine.Packet) (mi : ModelInputs)
    (h : NpuEngine.Packet.prepare_inputs (some mc) (some pad) batch = Except.ok mi) :
    (∀ row ∈ mi.input_ids, row.length = batchMaxLength batch) ∧
    (∀ row ∈ mi.position_ids, row.length = batchMaxLength batch) := by
  obtain ⟨h1, h2, -, -⟩ := prepare_inputs_ok_fields mc pad batch mi h
  refine ⟨?_, ?_⟩
  · intro row hrow
    rw [h1] at hrow
    obtain ⟨p, hp, rfl⟩ := List.mem_map.mp hrow
    exact rowInputIds_length batch pad p hp
  · intro row hrow
    rw [h2] at hrow
    obtain ⟨p, hp, rfl⟩ := List.mem_map.mp hrow
    exact rowPositionIds_length batch p hp

/-- Witness for C3 on a mixed decode-then-prefill batch of max length 4. -/
theorem c3_uniform_row_length_witness :
    (∀ row ∈ miMix.input_ids, row.length = batchMaxLength [pkt42, pkt579]) ∧
    (∀ row ∈ miMix.position_ids, row.length = batchMaxLength [pkt42, pkt579]) :=
  c3_uniform_row_length [("model_name", "llama2")] 0 [pkt42, pkt579] miMix rfl

/-- C8: `prepare_inputs` returns one `generate_type` tag for the whole batch,
and it is the tag of the last packet processed: `"prefill"` if that packet
has no generated tokens, `"decode"` otherwise — whatever the earlier rows
were. -/
theorem c8_generate_type_from_last (mc : List (String × String)) (pad : Int)
    (batch : List CoreEngine.Packet) (mi : ModelInputs) (q : CoreEngine.Packet)
    (h : NpuEngine.Packet.prepare_inputs (some mc) (some pad) batch = Except.ok mi)
    (hq : batch.getLast? = some q) :
    mi.generate_type = if q.generate_ids.length = 0 then "prefill" else "decode" := by
  obtain ⟨-, -, h3, -⟩ := prepare_inputs_ok_fields mc pad batch mi h
  exact h3 q hq

/-- Witness for C8: on the mixed batch `[pkt42, pkt579]` — a decode row
before a prefill row — the single tag comes from the last packet and is
`"prefill"`. -/
theorem c8_generate_type_from_last_witness : miMix.generate_type = "prefill" :=
  c8_generate_type_from_last [("model_name", "llama2")] 0 [pkt42, pkt579]
    miMix pkt579 rfl rfl

/-- C4 counterexample: on the empty batch (with both configuration kwargs
present) `prepare_inputs` fails with `UnboundLocalError` on `generate_type`,
which is not the `EmptyBatchError` the claim names. -/
theorem c4_empty_batch_counterexample :
    NpuEngine.Packet.prepare_inputs (some [("model_name", "llama2")]) (some 0) [] =
      Except.error (PyError.unboundLocalError "generate_type") ∧
    PyError.unboundLocalError "generate_type" ≠ PyError.emptyBatchError :=
  ⟨rfl, by decide⟩

/-- C4 amended: for every configuration, `prepare_inputs` on the empty batch
crashes with `UnboundLocalError` on the loop-local `generate_type` (the loop
body that would assign it never runs), not with an `EmptyBatchError`. -/
theorem c4_empty_batch_unbound_local (mc : List (String × String)) (pad : Int) :
    NpuEngine.Packet.prepare_inputs (some mc) (some pad) [] =
      Except.error (PyError.unboundLocalError "generate_type") := rfl

/-- C5 counterexample: with the `model_config` kwarg absent, `prepare_inputs`
fails with `KeyError("model_config")`, which is not the `ConfigurationError`
the claim names. -/
theorem c5_missing_key_counterexample :
    NpuEngine.Packet.prepare_inputs none (some 0) [pkt579] =
      Except.error (PyError.keyError "model_config") ∧
    PyError.keyError "model_config" ≠ PyError.configurationError :=
  ⟨rfl, by decide⟩

/-- C5 amended: each absent required configuration key — the `model_config`
kwarg, the `pad_token_id` kwarg, or the `model_name` entry of the model
configuration — makes `prepare_inputs` fail with a `KeyError` naming that
key (for `model_name` the batch must be non-empty, since the empty batch
crashes earlier on `generate_type`). -/
theorem c5_missing_keys_raise_key_error :
    (∀ (kwPad : Option Int) (batch : List CoreEngine.Packet),
      NpuEngine.Packet.prepare_inputs none kwPad batch =
        Except.error (PyError.keyError "model_config")) ∧
    (∀ (mc : List (String × String)) (batch : List CoreEngine.Packet),
      NpuEngine.Packet.prepare_inputs (some mc) none batch =
        Except.error (PyError.keyError "pad_token_id")) ∧
    (∀ (mc : List (String × String)) (pad : Int)
        (batch : List CoreEngine.Packet) (q : CoreEngine.Packet),
      batch.getLast? = some q → mc.lookup "model_name" = none →
      NpuEngine.Packet.prepare_inputs (some mc) (some pad) batch =
        Except.error (PyError.keyError "model_name")) := by
  refine ⟨fun kwPad batch => rfl, fun mc batch => rfl, ?_⟩
  intro mc pad batch q hq hmc
  rw [prepare_inputs_some_some, prepareLoop_eq]
  dsimp only
  rw [foldl_rowType_getLast batch none q hq]
  dsimp only
  rw [hmc]

/-- Witness for C5 (amended): a configuration with no `model_name` entry and
a non-empty batch raises `KeyError("model_name")`. -/
theorem c5_missing_keys_raise_key_error_witness :
    NpuEngine.Packet.prepare_inputs (some []) (some 0) [pkt579] =
      Except.error (PyError.keyError "model_name") :=
  c5_missing_keys_raise_key_error.2.2 [] 0 [pkt579] pkt579 rfl rfl
